import Mathlib

/-!
Verification of the CAN signal-bridge pipeline of the Sample_vECU_Zonal_Wsl2
repository.  The Lean definitions below are shallow embeddings of the Python
source functions:

* `encode`                — `CANMessageEncoder.encode` (src/fmu_can_bridge.py)
* `decode_can_data`       — `SimpleZonalController.decode_can_data`
                            (src/scripts/zonal_controller_simple.py)
* `simple_map_to_vss`, `simple_process_message`
                          — `SimpleZonalController.map_to_vss` / `process_message`
* `manual_decode`         — `DBCManager.manual_decode` (src/scripts/zonal_controller.py)
* `decode_layout`, `decode_message`
                          — `DBCManager.decode_message` decoding against the
                            virtual light-control layout built by
                            `DBCManager.create_virtual_database`
* `validate_message`, `process_incoming_message`
                          — `CANMessageProcessor.validate_message` and
                            `EnhancedWSL2SocketServer.process_incoming_message`
                            (src/scripts/wsl2_socket_server.py)
* `forward_message`       — the backup-buffer policy of `CANForwarder.forward_message`
* `map_can_to_vss`        — `VSSMapper.map_can_to_vss` with the built-in mapping
                            table of `VSSMapper.load_mappings`

Python integers are modelled as `Int` (ids, raw inputs) or `Nat` (payload
bytes); Python `x >> 8` on an `int` is floor division, which for the positive
divisors used here coincides with `Int` division `/`, and Python `x & 0xFF`
is `x % 256` in two's-complement semantics, matching `Int` `%`.
-/

/-- Value produced by a Python decoder: either a `bool` (from `bool(...)`)
or a nonnegative `int` (a raw byte or bit-field value). -/
inductive PyVal where
  | b (x : Bool)
  | n (x : Nat)
deriving DecidableEq, Repr

/-- Numeric content of a Python value; Python `==` identifies `True` with `1`
and `False` with `0`, so two values are Python-equal iff `pyToInt` agrees. -/
def pyToInt : PyVal → Nat
  | .b x => x.toNat
  | .n x => x

/-- Input record of `CANMessageEncoder.encode`: the `fmu_data` dict.  A key
that may be absent from the dict is an `Option` field.  Numeric entries are
modelled after Python's `int(...)` conversion has been applied. -/
structure FmuData where
  headlamp : Option Bool
  tailLamp : Option Bool
  brakeLamp : Option Bool
  indicator_left : Option Bool
  indicator_right : Option Bool
  light_level : Option Int
  vehicle_speed : Option Int
  ambient : Option Int

/-- Result of `CANMessageEncoder.encode`: the CAN frame dict (the timestamp /
source metadata fields carry no signal content and are not modelled). -/
structure CanFrame where
  can_id : Int
  can_data : List Nat
  dlc : Nat
deriving DecidableEq

/-- One boolean signal's contribution to byte 0: `data[byte_pos] |= (1 << bit_pos)`
executed when the signal is present and truthy. -/
def boolBit (x : Bool) (k : Nat) : Nat := if x then 1 <<< k else 0

/-- Clamping used for `light_level` and `vehicle_speed`:
`val = max(0, min(255, int(val)))`. -/
def clampByte (v : Int) : Nat := (max 0 (min 255 v)).toNat

/-- Shallow embedding of `CANMessageEncoder.encode` (src/fmu_can_bridge.py,
lines 189-234): builds the 8-byte buffer, setting byte 0 bits 0-4 from the
boolean signals, byte 1 from clamped `light_level`, byte 2 from clamped
`vehicle_speed`, and bytes 3-4 from `ambient` as `(v >> 8) & 0xFF` and
`v & 0xFF`; absent keys leave their bytes zero. -/
def encode (fmu_data : FmuData) : CanFrame :=
  { can_id := 0x100
    can_data :=
      [ boolBit (fmu_data.headlamp.getD false) 0 |||
          boolBit (fmu_data.tailLamp.getD false) 1 |||
          boolBit (fmu_data.brakeLamp.getD false) 2 |||
          boolBit (fmu_data.indicator_left.getD false) 3 |||
          boolBit (fmu_data.indicator_right.getD false) 4,
        (fmu_data.light_level.map clampByte).getD 0,
        (fmu_data.vehicle_speed.map clampByte).getD 0,
        (fmu_data.ambient.map (fun a => ((a / 256) % 256).toNat)).getD 0,
        (fmu_data.ambient.map (fun a => (a % 256).toNat)).getD 0,
        0, 0, 0 ]
    dlc := 8 }

/-- Output dict of `SimpleZonalController.decode_can_data`; a key present only
under a length condition is an `Option` field. -/
structure DecodedSimple where
  headLamp : Option Bool
  tailLamp : Option Bool
  brakeLamp : Option Bool
  indicatorLeft : Option Bool
  indicatorRight : Option Bool
  lightLevel : Option Nat
  vehicleSpeed : Option Nat
  ambient : Option Nat
deriving DecidableEq

/-- Shallow embedding of `SimpleZonalController.decode_can_data`
(src/scripts/zonal_controller_simple.py, lines 58-85): the hard-coded byte
layout decoder for identifier 0x100.  Payload entries are bytes (`Nat`). -/
def decode_can_data (can_id : Int) (can_data : List Nat) : DecodedSimple :=
  if can_id = 0x100 then
    { headLamp := if 0 < can_data.length then some (decide (can_data.getD 0 0 &&& 0x01 ≠ 0)) else none
      tailLamp := if 0 < can_data.length then some (decide (can_data.getD 0 0 &&& 0x02 ≠ 0)) else none
      brakeLamp := if 0 < can_data.length then some (decide (can_data.getD 0 0 &&& 0x04 ≠ 0)) else none
      indicatorLeft := if 0 < can_data.length then some (decide (can_data.getD 0 0 &&& 0x08 ≠ 0)) else none
      indicatorRight := if 0 < can_data.length then some (decide (can_data.getD 0 0 &&& 0x10 ≠ 0)) else none
      lightLevel := if 1 < can_data.length then some (can_data.getD 1 0) else none
      vehicleSpeed := if 2 < can_data.length then some (can_data.getD 2 0) else none
      ambient := if 4 < can_data.length then some ((can_data.getD 3 0 <<< 8) ||| can_data.getD 4 0) else none }
  else
    { headLamp := none, tailLamp := none, brakeLamp := none, indicatorLeft := none,
      indicatorRight := none, lightLevel := none, vehicleSpeed := none, ambient := none }

set_option maxRecDepth 4000 in
/-- Reading back the five boolean bits written into byte 0 by the encoder
recovers the original booleans. -/
theorem byte0_spec : ∀ h t b i r : Bool,
    (decide ((boolBit h 0 ||| boolBit t 1 ||| boolBit b 2 ||| boolBit i 3 ||| boolBit r 4) &&& 0x01 ≠ 0) = h) ∧
    (decide ((boolBit h 0 ||| boolBit t 1 ||| boolBit b 2 ||| boolBit i 3 ||| boolBit r 4) &&& 0x02 ≠ 0) = t) ∧
    (decide ((boolBit h 0 ||| boolBit t 1 ||| boolBit b 2 ||| boolBit i 3 ||| boolBit r 4) &&& 0x04 ≠ 0) = b) ∧
    (decide ((boolBit h 0 ||| boolBit t 1 ||| boolBit b 2 ||| boolBit i 3 ||| boolBit r 4) &&& 0x08 ≠ 0) = i) ∧
    (decide ((boolBit h 0 ||| boolBit t 1 ||| boolBit b 2 ||| boolBit i 3 ||| boolBit r 4) &&& 0x10 ≠ 0) = r) := by
  decide

/-- Splitting a natural number into its high and low byte groups and
recombining them with shift and or is the identity. -/
theorem byte_recompose (n : Nat) : ((n / 256) <<< 8) ||| n % 256 = n := by
  have h256 : (256 : Nat) = 2 ^ 8 := by norm_num
  rw [h256]
  apply Nat.eq_of_testBit_eq
  intro j
  rw [Nat.testBit_lor, Nat.testBit_shiftLeft, Nat.testBit_mod_two_pow]
  rcases Nat.lt_or_ge j 8 with h | h
  · simp [Nat.not_le.mpr h, h]
  · have h2 : n / 2 ^ 8 = n >>> 8 := by rw [Nat.shiftRight_eq_div_pow]
    have h3 : ¬ j < 8 := by omega
    rw [h2, Nat.testBit_shiftRight]
    simp [h, h3]

/-- Unfolding of `decode_can_data` on an explicit full 8-byte payload. -/
theorem decode_can_data_eq (b0 b1 b2 b3 b4 b5 b6 b7 : Nat) :
    decode_can_data 0x100 [b0, b1, b2, b3, b4, b5, b6, b7] =
      ⟨some (decide (b0 &&& 0x01 ≠ 0)), some (decide (b0 &&& 0x02 ≠ 0)),
       some (decide (b0 &&& 0x04 ≠ 0)), some (decide (b0 &&& 0x08 ≠ 0)),
       some (decide (b0 &&& 0x10 ≠ 0)),
       some b1, some b2, some ((b3 <<< 8) ||| b4)⟩ := by
  rfl

/-- C1: for any value assignment within each signal's declared range on the
light-control layout (booleans, uint8 light level and speed, uint16 ambient),
decoding the 8-byte payload produced by `encode` with the 0x100 byte-layout
decoder `decode_can_data` yields the same values back; no scale or offset is
applied on either side, so the round trip is exact. -/
theorem c1_encode_decode_roundtrip (hl tl bl il ir : Bool) (l s a : Int)
    (hL0 : 0 ≤ l) (hL1 : l ≤ 255) (hS0 : 0 ≤ s) (hS1 : s ≤ 255)
    (hA0 : 0 ≤ a) (hA1 : a ≤ 65535) :
    decode_can_data 0x100
        (encode ⟨some hl, some tl, some bl, some il, some ir, some l, some s, some a⟩).can_data
      = ⟨some hl, some tl, some bl, some il, some ir,
         some l.toNat, some s.toNat, some a.toNat⟩ := by
  have hb := byte0_spec hl tl bl il ir
  have e1 : clampByte l = l.toNat := by unfold clampByte; omega
  have e2 : clampByte s = s.toNat := by unfold clampByte; omega
  have e3 : ((a / 256) % 256).toNat = a.toNat / 256 := by omega
  have e4 : (a % 256).toNat = a.toNat % 256 := by omega
  simp only [encode, Option.map_some, Option.getD_some]
  rw [decode_can_data_eq]
  simp only [DecodedSimple.mk.injEq, Option.some.injEq]
  refine ⟨hb.1, hb.2.1, hb.2.2.1, hb.2.2.2.1, hb.2.2.2.2, e1, e2, ?_⟩
  show ((a / 256) % 256).toNat <<< 8 ||| (a % 256).toNat = a.toNat
  rw [e3, e4, byte_recompose]

/-- Byte 0 as written by the encoder never exceeds 255 (it uses bits 0-4 only). -/
theorem byte0_le : ∀ h t b i r : Bool,
    (boolBit h 0 ||| boolBit t 1 ||| boolBit b 2 ||| boolBit i 3 ||| boolBit r 4) ≤ 255 := by
  decide

/-- Boolean signals absent from the input leave their bit of byte 0 clear. -/
theorem byte0_absent : ∀ h t b i r : Bool,
    (h = false → (boolBit h 0 ||| boolBit t 1 ||| boolBit b 2 ||| boolBit i 3 ||| boolBit r 4) &&& 0x01 = 0) ∧
    (t = false → (boolBit h 0 ||| boolBit t 1 ||| boolBit b 2 ||| boolBit i 3 ||| boolBit r 4) &&& 0x02 = 0) ∧
    (b = false → (boolBit h 0 ||| boolBit t 1 ||| boolBit b 2 ||| boolBit i 3 ||| boolBit r 4) &&& 0x04 = 0) ∧
    (i = false → (boolBit h 0 ||| boolBit t 1 ||| boolBit b 2 ||| boolBit i 3 ||| boolBit r 4) &&& 0x08 = 0) ∧
    (r = false → (boolBit h 0 ||| boolBit t 1 ||| boolBit b 2 ||| boolBit i 3 ||| boolBit r 4) &&& 0x10 = 0) := by
  decide

/-- Witness for C1 at a concrete in-range assignment. -/
theorem c1_encode_decode_roundtrip_witness :
    (0 : Int) ≤ 100 ∧ (100 : Int) ≤ 255 ∧ (0 : Int) ≤ 60 ∧ (60 : Int) ≤ 255 ∧
    (0 : Int) ≤ 300 ∧ (300 : Int) ≤ 65535 ∧
    decode_can_data 0x100
        (encode ⟨some true, some false, some true, some false, some true,
                 some 100, some 60, some 300⟩).can_data
      = ⟨some true, some false, some true, some false, some true,
         some 100, some 60, some 300⟩ :=
  ⟨by decide, by decide, by decide, by decide, by decide, by decide,
   c1_encode_decode_roundtrip true false true false true 100 60 300
     (by decide) (by decide) (by decide) (by decide) (by decide) (by decide)⟩

/-- C6 counterexample: the uint16 ambient field is NOT clamped on encode.
Encoding the out-of-range value 65536 masks each of its two bytes, so the
frame decodes ambient back to 0, not to the clamped value 65535. -/
theorem c6_ambient_not_clamped_counterexample :
    (decode_can_data 0x100
        (encode ⟨none, none, none, none, none, none, none, some 65536⟩).can_data).ambient
      = some 0 ∧ some (0 : Nat) ≠ some (65535 : Nat) := by
  constructor
  · rfl
  · decide

/-- C6 (amended): encoding never raises; `light_level` and `vehicle_speed`
are clamped to [0,255] and the encoded frame decodes them back to the clamped
value; the `ambient` field is not clamped but masked byte-wise, so the frame
decodes ambient to the input reduced mod 65536 - for any input above 65535
this differs from the original (and from the clamped) value. -/
theorem c6_clamp_and_mask (l s a : Int) :
    (decode_can_data 0x100
        (encode ⟨none, none, none, none, none, some l, some s, some a⟩).can_data).lightLevel
      = some (max 0 (min 255 l)).toNat ∧
    (decode_can_data 0x100
        (encode ⟨none, none, none, none, none, some l, some s, some a⟩).can_data).vehicleSpeed
      = some (max 0 (min 255 s)).toNat ∧
    (decode_can_data 0x100
        (encode ⟨none, none, none, none, none, some l, some s, some a⟩).can_data).ambient
      = some (a % 65536).toNat ∧
    (65536 ≤ a →
      (decode_can_data 0x100
          (encode ⟨none, none, none, none, none, some l, some s, some a⟩).can_data).ambient
        ≠ some a.toNat) := by
  have henc : (encode ⟨none, none, none, none, none, some l, some s, some a⟩).can_data
      = [0, clampByte l, clampByte s, ((a / 256) % 256).toNat, (a % 256).toNat, 0, 0, 0] := by
    simp [encode, boolBit]
  have e3 : ((a / 256) % 256).toNat = (a % 65536).toNat / 256 := by omega
  have e4 : (a % 256).toNat = (a % 65536).toNat % 256 := by omega
  have hamb : ((a / 256) % 256).toNat <<< 8 ||| (a % 256).toNat = (a % 65536).toNat := by
    rw [e3, e4, byte_recompose]
  rw [henc, decode_can_data_eq]
  refine ⟨rfl, rfl, ?_, ?_⟩
  · show some (((a / 256) % 256).toNat <<< 8 ||| (a % 256).toNat) = some (a % 65536).toNat
    rw [hamb]
  · intro hbig
    show some (((a / 256) % 256).toNat <<< 8 ||| (a % 256).toNat) ≠ some a.toNat
    rw [hamb]
    intro hcontra
    have := Option.some.inj hcontra
    omega

/-- Witness for C6 (amended) at a concrete out-of-range assignment. -/
theorem c6_clamp_and_mask_witness :
    (decode_can_data 0x100
        (encode ⟨none, none, none, none, none, some 300, some (-7), some 70000⟩).can_data).lightLevel
      = some (max 0 (min 255 (300 : Int))).toNat ∧
    (65536 : Int) ≤ 70000 ∧
    (decode_can_data 0x100
        (encode ⟨none, none, none, none, none, some 300, some (-7), some 70000⟩).can_data).ambient
      ≠ some (70000 : Int).toNat :=
  ⟨(c6_clamp_and_mask 300 (-7) 70000).1, by decide,
   (c6_clamp_and_mask 300 (-7) 70000).2.2.2 (by decide)⟩

/-- C9: for every input record, `encode` returns a frame with identifier
0x100, dlc 8, and a payload of exactly 8 entries each in [0,255], regardless
of the magnitude or sign of the inputs; keys absent from the input leave
their payload bytes (for booleans, their bit of byte 0) zero. -/
theorem c9_encode_invariants (d : FmuData) :
    (encode d).can_id = 0x100 ∧
    (encode d).dlc = 8 ∧
    (encode d).can_data.length = 8 ∧
    (∀ b ∈ (encode d).can_data, b ≤ 255) ∧
    (d.light_level = none → (encode d).can_data.getD 1 0 = 0) ∧
    (d.vehicle_speed = none → (encode d).can_data.getD 2 0 = 0) ∧
    (d.ambient = none → (encode d).can_data.getD 3 0 = 0 ∧ (encode d).can_data.getD 4 0 = 0) ∧
    (d.headlamp = none → (encode d).can_data.getD 0 0 &&& 0x01 = 0) ∧
    (d.tailLamp = none → (encode d).can_data.getD 0 0 &&& 0x02 = 0) ∧
    (d.brakeLamp = none → (encode d).can_data.getD 0 0 &&& 0x04 = 0) ∧
    (d.indicator_left = none → (encode d).can_data.getD 0 0 &&& 0x08 = 0) ∧
    (d.indicator_right = none → (encode d).can_data.getD 0 0 &&& 0x10 = 0) := by
  obtain ⟨oh, ot, obr, oil, oir, ol, os, oa⟩ := d
  refine ⟨rfl, rfl, rfl, ?_, ?_, ?_, ?_, ?_, ?_, ?_, ?_, ?_⟩
  · intro b hb
    simp only [encode, List.mem_cons, List.not_mem_nil, or_false] at hb
    rcases hb with rfl | rfl | rfl | rfl | rfl | rfl | rfl | rfl
    · exact byte0_le _ _ _ _ _
    · cases ol with
      | none => simp
      | some v => show clampByte v ≤ 255; unfold clampByte; omega
    · cases os with
      | none => simp
      | some v => show clampByte v ≤ 255; unfold clampByte; omega
    · cases oa with
      | none => simp
      | some v => show ((v / 256) % 256).toNat ≤ 255; omega
    · cases oa with
      | none => simp
      | some v => show (v % 256).toNat ≤ 255; omega
    · omega
    · omega
    · omega
  · intro h; subst h; rfl
  · intro h; subst h; rfl
  · intro h; subst h; exact ⟨rfl, rfl⟩
  · intro h; subst h
    exact (byte0_absent false (ot.getD false) (obr.getD false) (oil.getD false) (oir.getD false)).1 rfl
  · intro h; subst h
    exact (byte0_absent (oh.getD false) false (obr.getD false) (oil.getD false) (oir.getD false)).2.1 rfl
  · intro h; subst h
    exact (byte0_absent (oh.getD false) (ot.getD false) false (oil.getD false) (oir.getD false)).2.2.1 rfl
  · intro h; subst h
    exact (byte0_absent (oh.getD false) (ot.getD false) (obr.getD false) false (oir.getD false)).2.2.2.1 rfl
  · intro h; subst h
    exact (byte0_absent (oh.getD false) (ot.getD false) (obr.getD false) (oil.getD false) false).2.2.2.2 rfl

/-- Witness for C9 at an empty input record: the frame keeps its shape and
all bytes stay zero. -/
theorem c9_encode_invariants_witness :
    (encode ⟨none, none, none, none, none, none, none, none⟩).can_id = 0x100 ∧
    (encode ⟨none, none, none, none, none, none, none, none⟩).can_data.getD 1 0 = 0 ∧
    (encode ⟨none, none, none, none, none, none, none, none⟩).can_data.getD 0 0 &&& 0x01 = 0 :=
  ⟨(c9_encode_invariants ⟨none, none, none, none, none, none, none, none⟩).1,
   (c9_encode_invariants ⟨none, none, none, none, none, none, none, none⟩).2.2.2.2.1 rfl,
   (c9_encode_invariants ⟨none, none, none, none, none, none, none, none⟩).2.2.2.2.2.2.2.1 rfl⟩

/-- Signal rows of the virtual LIGHT_CONTROL message registered for frame id
0x100 by `DBCManager.create_virtual_database` (src/scripts/zonal_controller.py,
lines 85-186): (name, start bit, bit length), little-endian byte order with
LSB-first bit numbering, scale 1, offset 0. -/
def lightControlLayout : List (String × Nat × Nat) :=
  [("headLamp", 0, 1), ("tailLamp", 1, 1), ("brakeLamp", 2, 1),
   ("indicatorLeft", 3, 1), ("indicatorRight", 4, 1),
   ("lightLevel", 8, 8), ("vehicleSpeed", 16, 8)]

/-- Little-endian value of a byte sequence: bit `8*i + j` of the result is
bit `j` of byte `i`, the bit numbering used by the layout above. -/
def bytesToNat : List Nat → Nat
  | [] => 0
  | b :: rest => b + 256 * bytesToNat rest

/-- Extraction of the raw bit field `[start, start+len)` out of a frame
value, the table-driven decode step of spec section 4.1. -/
def rawExtract (payload start len : Nat) : Nat := (payload >>> start) % 2 ^ len

/-- Declarative decode of a payload against the virtual light-control
layout: every signal of the table is extracted (scale 1 and offset 0 leave
the raw integers unchanged, which is what the DBC library returns). -/
def decode_layout (data : List Nat) : List (String × PyVal) :=
  lightControlLayout.map fun sig => (sig.1, PyVal.n (rawExtract (bytesToNat data) sig.2.1 sig.2.2))

/-- Zero padding applied by `DBCManager.decode_message` before decoding:
`if len(data) < 8: data = data + bytes(8 - len(data))`. -/
def pad8 (data : List Nat) : List Nat := data ++ List.replicate (8 - data.length) 0

/-- Shallow embedding of `DBCManager.decode_message`
(src/scripts/zonal_controller.py, lines 188-253): the payload is zero-padded
to 8 bytes, the table is consulted (only id 0x100 has an entry), and the
padded payload is decoded against the declarative layout; unknown ids give
`none`. -/
def decode_message (can_id : Int) (data : List Nat) : Option (List (String × PyVal)) :=
  if can_id = 0x100 then some (decode_layout (pad8 data)) else none

/-- Shallow embedding of `DBCManager.manual_decode`
(src/scripts/zonal_controller.py, lines 255-275): the hard-coded fallback for
id 0x100, guarded byte group by byte group on the length of the data it is
given. -/
def manual_decode (can_id : Int) (data : List Nat) : List (String × PyVal) :=
  if can_id = 0x100 then
    (if 1 ≤ data.length then
      [("headLamp", PyVal.b (decide (data.getD 0 0 &&& 0x01 ≠ 0))),
       ("tailLamp", PyVal.b (decide (data.getD 0 0 &&& 0x02 ≠ 0))),
       ("brakeLamp", PyVal.b (decide (data.getD 0 0 &&& 0x04 ≠ 0))),
       ("indicatorLeft", PyVal.b (decide (data.getD 0 0 &&& 0x08 ≠ 0))),
       ("indicatorRight", PyVal.b (decide (data.getD 0 0 &&& 0x10 ≠ 0)))]
     else []) ++
    (if 2 ≤ data.length then [("lightLevel", PyVal.n (data.getD 1 0))] else []) ++
    (if 3 ≤ data.length then [("vehicleSpeed", PyVal.n (data.getD 2 0))] else [])
  else []

set_option maxRecDepth 4000 in
/-- Bit tests on a byte, restated through division and remainder. -/
theorem andBit : ∀ d : Nat, d < 256 →
    (decide (d &&& 0x01 ≠ 0)).toNat = d % 2 ∧
    (decide (d &&& 0x02 ≠ 0)).toNat = d / 2 % 2 ∧
    (decide (d &&& 0x04 ≠ 0)).toNat = d / 4 % 2 ∧
    (decide (d &&& 0x08 ≠ 0)).toNat = d / 8 % 2 ∧
    (decide (d &&& 0x10 ≠ 0)).toNat = d / 16 % 2 := by
  decide

/-- C2 counterexample: decoding the one-byte frame [1] against the frame
layout does NOT omit the signals beyond the declared length: `lightLevel` and
`vehicleSpeed` are reported, zero-filled. -/
theorem c2_short_frame_counterexample :
    ((decode_message 0x100 [1]).getD []).lookup "lightLevel" = some (PyVal.n 0) ∧
    ((decode_message 0x100 [1]).getD []).lookup "vehicleSpeed" = some (PyVal.n 0) := by
  constructor <;> rfl

/-- C2 (amended): `decode_message` zero-pads a short payload to 8 bytes and
decodes every signal of the layout against the padded bytes, so signals
beyond the payload length are reported with zero-filled values; only the
manual fallback `manual_decode`, applied directly to the unpadded short
payload, omits the signals whose bytes are missing (bit signals need at
least 1 byte, `lightLevel` 2, `vehicleSpeed` 3). -/
theorem c2_short_frame_behavior :
    (∀ data : List Nat, (∀ b ∈ data, b < 256) → data.length < 2 →
      ("lightLevel", PyVal.n 0) ∈ (decode_message 0x100 data).getD [] ∧
      ("vehicleSpeed", PyVal.n 0) ∈ (decode_message 0x100 data).getD []) ∧
    (∀ data : List Nat, data.length = 0 →
      (manual_decode 0x100 data).lookup "headLamp" = none) ∧
    (∀ data : List Nat, data.length < 2 →
      (manual_decode 0x100 data).lookup "lightLevel" = none) ∧
    (∀ data : List Nat, data.length < 3 →
      (manual_decode 0x100 data).lookup "vehicleSpeed" = none) := by
  refine ⟨?_, ?_, ?_, ?_⟩
  · intro data hb hlen
    match data with
    | [] => constructor <;> decide
    | [d0] =>
      have hd0 : d0 < 256 := hb d0 (by simp)
      have hpad : pad8 [d0] = [d0, 0, 0, 0, 0, 0, 0, 0] := rfl
      have hN : bytesToNat [d0, 0, 0, 0, 0, 0, 0, 0] = d0 := by
        simp [bytesToNat]
      have hL : rawExtract d0 8 8 = 0 := by
        unfold rawExtract
        rw [Nat.shiftRight_eq_div_pow]
        norm_num
        omega
      have hV : rawExtract d0 16 8 = 0 := by
        unfold rawExtract
        rw [Nat.shiftRight_eq_div_pow]
        norm_num
        omega
      constructor
      · simp [decode_message, decode_layout, lightControlLayout, hpad, hN, hL]
      · simp [decode_message, decode_layout, lightControlLayout, hpad, hN, hV]
    | d0 :: d1 :: rest =>
      simp only [List.length_cons] at hlen
      omega
  · intro data h
    match data with
    | [] => rfl
  · intro data h
    match data with
    | [] => rfl
    | [d0] => rfl
    | d0 :: d1 :: rest =>
      simp only [List.length_cons] at h
      omega
  · intro data h
    match data with
    | [] => rfl
    | [d0] => rfl
    | [d0, d1] => rfl
    | d0 :: d1 :: d2 :: rest =>
      simp only [List.length_cons] at h
      omega

/-- Witness for C2 (amended) at the concrete one-byte payload [1]. -/
theorem c2_short_frame_behavior_witness :
    (∀ b ∈ [(1 : Nat)], b < 256) ∧ ([(1 : Nat)].length < 2) ∧
    ("lightLevel", PyVal.n 0) ∈ (decode_message 0x100 [1]).getD [] ∧
    (manual_decode 0x100 [1]).lookup "lightLevel" = none :=
  ⟨by decide, by decide,
   (c2_short_frame_behavior.1 [1] (by decide) (by decide)).1,
   c2_short_frame_behavior.2.2.1 [1] (by decide)⟩

/-- C4: on every full 8-byte payload the hard-coded manual decode for
identifier 0x100 produces the same signal names in the same order with the
same (Python-equal) values as the declarative virtual light-control layout;
the manual decoder returns Python booleans where the layout yields the raw
bits 0/1, which Python `==` identifies, so values are compared through
`pyToInt`. -/
theorem c4_manual_matches_declarative (d0 d1 d2 d3 d4 d5 d6 d7 : Nat)
    (h0 : d0 < 256) (h1 : d1 < 256) (h2 : d2 < 256) (h3 : d3 < 256)
    (h4 : d4 < 256) (h5 : d5 < 256) (h6 : d6 < 256) (h7 : d7 < 256) :
    (decode_layout [d0, d1, d2, d3, d4, d5, d6, d7]).map (fun p => (p.1, pyToInt p.2))
      = (manual_decode 0x100 [d0, d1, d2, d3, d4, d5, d6, d7]).map (fun p => (p.1, pyToInt p.2)) := by
  have ha := andBit d0 h0
  have hN : bytesToNat [d0, d1, d2, d3, d4, d5, d6, d7]
      = d0 + 256 * (d1 + 256 * (d2 + 256 * (d3 + 256 * (d4 + 256 * (d5 + 256 * (d6 + 256 * d7)))))) := by
    simp [bytesToNat]
  have hM : manual_decode 0x100 [d0, d1, d2, d3, d4, d5, d6, d7] =
      [("headLamp", PyVal.b (decide (d0 &&& 0x01 ≠ 0))),
       ("tailLamp", PyVal.b (decide (d0 &&& 0x02 ≠ 0))),
       ("brakeLamp", PyVal.b (decide (d0 &&& 0x04 ≠ 0))),
       ("indicatorLeft", PyVal.b (decide (d0 &&& 0x08 ≠ 0))),
       ("indicatorRight", PyVal.b (decide (d0 &&& 0x10 ≠ 0))),
       ("lightLevel", PyVal.n d1), ("vehicleSpeed", PyVal.n d2)] := rfl
  have hD : decode_layout [d0, d1, d2, d3, d4, d5, d6, d7] =
      [("headLamp", PyVal.n (rawExtract (bytesToNat [d0, d1, d2, d3, d4, d5, d6, d7]) 0 1)),
       ("tailLamp", PyVal.n (rawExtract (bytesToNat [d0, d1, d2, d3, d4, d5, d6, d7]) 1 1)),
       ("brakeLamp", PyVal.n (rawExtract (bytesToNat [d0, d1, d2, d3, d4, d5, d6, d7]) 2 1)),
       ("indicatorLeft", PyVal.n (rawExtract (bytesToNat [d0, d1, d2, d3, d4, d5, d6, d7]) 3 1)),
       ("indicatorRight", PyVal.n (rawExtract (bytesToNat [d0, d1, d2, d3, d4, d5, d6, d7]) 4 1)),
       ("lightLevel", PyVal.n (rawExtract (bytesToNat [d0, d1, d2, d3, d4, d5, d6, d7]) 8 8)),
       ("vehicleSpeed", PyVal.n (rawExtract (bytesToNat [d0, d1, d2, d3, d4, d5, d6, d7]) 16 8))] := rfl
  rw [hM, hD]
  simp only [List.map_cons, List.map_nil, pyToInt, List.cons.injEq, Prod.mk.injEq, true_and,
    and_true]
  rw [ha.1, ha.2.1, ha.2.2.1, ha.2.2.2.1, ha.2.2.2.2]
  simp only [rawExtract, Nat.shiftRight_eq_div_pow, hN]
  norm_num
  omega

/-- Witness for C4 at a concrete payload. -/
theorem c4_manual_matches_declarative_witness :
    ((1 : Nat) < 256) ∧
    (decode_layout [1, 50, 60, 0, 0, 0, 0, 0]).map (fun p => (p.1, pyToInt p.2))
      = (manual_decode 0x100 [1, 50, 60, 0, 0, 0, 0, 0]).map (fun p => (p.1, pyToInt p.2)) :=
  ⟨by decide,
   c4_manual_matches_declarative 1 50 60 0 0 0 0 0 (by decide) (by decide) (by decide)
     (by decide) (by decide) (by decide) (by decide) (by decide)⟩

/-- Incoming frame envelope as seen by the socket server after JSON parsing;
a field that may be missing from the JSON object is an `Option`. -/
structure Envelope where
  can_id : Option Int
  can_data : Option (List Nat)
  dlc : Option Int
deriving DecidableEq

/-- Outcome of `CANMessageProcessor.validate_message`: `ok`, or the first
failing rule in source order. -/
inductive ValidationResult where
  | ok
  | missingField
  | badId
  | badDlc
  | badLen
deriving DecidableEq, Repr

/-- Shallow embedding of `CANMessageProcessor.validate_message`
(src/scripts/wsl2_socket_server.py, lines 83-112).  Rules in source order:
required fields `can_id`, `can_data`, `dlc` present; `0x000 <= can_id <= 0x7FF`;
`0 <= dlc <= 8`; `len(can_data) == 8`.  The result names the first rule that
fails (the Python function returns `False` there). -/
def validate_message : Envelope → ValidationResult
  | ⟨some cid, some cdata, some d⟩ =>
    if ¬ (0 ≤ cid ∧ cid ≤ 0x7FF) then .badId
    else if ¬ (0 ≤ d ∧ d ≤ 8) then .badDlc
    else if cdata.length ≠ 8 then .badLen
    else .ok
  | _ => .missingField

/-- Counters of `CANMessageProcessor.stats` touched by the message path. -/
structure ProcStats where
  total_received : Nat
  invalid_ids : Nat
  invalid_data : Nat
deriving DecidableEq

/-- Counter side effects of `validate_message`: in the source only the
identifier rule bumps `invalid_ids` and only the payload-length rule bumps
`invalid_data`; the missing-field and dlc branches return with no counter
update. -/
def applyCounters (s : ProcStats) : ValidationResult → ProcStats
  | .badId => { s with invalid_ids := s.invalid_ids + 1 }
  | .badLen => { s with invalid_data := s.invalid_data + 1 }
  | _ => s

/-- Shallow embedding of `CANMessageProcessor.process_message`: count the
message, validate, and return the enriched message (modelled as the envelope
itself; the added metadata carries no signal content) or `none` on failure. -/
def processor_process_message (s : ProcStats) (e : Envelope) :
    ProcStats × Option Envelope :=
  let s1 : ProcStats := { s with total_received := s.total_received + 1 }
  let r := validate_message e
  (applyCounters s1 r, if r = .ok then some e else none)

/-- Backup-buffer policy of `CANForwarder.forward_message`
(src/scripts/wsl2_socket_server.py, lines 36-54): `put_nowait` on a queue of
capacity 1000; when the queue is full the single oldest entry is taken out
and the new frame is appended. -/
def forward_message {α : Type} (buffer : List α) (x : α) : List α :=
  if buffer.length < 1000 then buffer ++ [x] else buffer.drop 1 ++ [x]

/-- Observable server state for one connection: processor counters, the
frames published to subscribers, the local backup buffer, and whether the
connection is still open. -/
structure ServerState where
  pstats : ProcStats
  forwarded : List Envelope
  buffer : List Envelope
  connectionOpen : Bool

/-- Shallow embedding of `EnhancedWSL2SocketServer.process_incoming_message`
(src/scripts/wsl2_socket_server.py, lines 309-338) on an already-parsed
envelope: validate; on failure return with only the counters updated; on
success publish the frame (the `forwarded` log) and append it to the backup
buffer.  No branch raises, so the connection state is untouched. -/
def process_incoming_message (st : ServerState) (e : Envelope) : ServerState :=
  let r := processor_process_message st.pstats e
  match r.2 with
  | none => { st with pstats := r.1 }
  | some env =>
    { pstats := r.1
      forwarded := st.forwarded ++ [env]
      buffer := forward_message st.buffer env
      connectionOpen := st.connectionOpen }

/-- C3: frame validation applies its four rules in order (missing fields
dominate, then identifier range, then dlc range, then exact payload length 8);
an envelope with identifier 0x800 is rejected, an envelope with a 7-byte
payload is rejected, and the envelope (0x100, dlc 8, [1,50,60,0,0,0,0,0]) is
accepted and decodes headLamp=true, lightLevel=50, vehicleSpeed=60. -/
theorem c3_frame_validation :
    (∀ e : Envelope, e.can_id = none ∨ e.can_data = none ∨ e.dlc = none →
      validate_message e = .missingField) ∧
    (∀ (cid d : Int) (cdata : List Nat), ¬ (0 ≤ cid ∧ cid ≤ 0x7FF) →
      validate_message ⟨some cid, some cdata, some d⟩ = .badId) ∧
    (∀ (cid d : Int) (cdata : List Nat), (0 ≤ cid ∧ cid ≤ 0x7FF) →
      ¬ (0 ≤ d ∧ d ≤ 8) →
      validate_message ⟨some cid, some cdata, some d⟩ = .badDlc) ∧
    (∀ (cid d : Int) (cdata : List Nat), (0 ≤ cid ∧ cid ≤ 0x7FF) →
      (0 ≤ d ∧ d ≤ 8) → cdata.length ≠ 8 →
      validate_message ⟨some cid, some cdata, some d⟩ = .badLen) ∧
    (∀ (cid d : Int) (cdata : List Nat), (0 ≤ cid ∧ cid ≤ 0x7FF) →
      (0 ≤ d ∧ d ≤ 8) → cdata.length = 8 →
      validate_message ⟨some cid, some cdata, some d⟩ = .ok) ∧
    validate_message ⟨some 0x800, some (List.replicate 8 0), some 8⟩ = .badId ∧
    validate_message ⟨some 0x100, some [1, 50, 60, 0, 0, 0, 0], some 7⟩ = .badLen ∧
    validate_message ⟨some 0x100, some [1, 50, 60, 0, 0, 0, 0, 0], some 8⟩ = .ok ∧
    (manual_decode 0x100 [1, 50, 60, 0, 0, 0, 0, 0]).lookup "headLamp" = some (PyVal.b true) ∧
    (manual_decode 0x100 [1, 50, 60, 0, 0, 0, 0, 0]).lookup "lightLevel" = some (PyVal.n 50) ∧
    (manual_decode 0x100 [1, 50, 60, 0, 0, 0, 0, 0]).lookup "vehicleSpeed" = some (PyVal.n 60) := by
  refine ⟨?_, ?_, ?_, ?_, ?_, by rfl, by rfl, by rfl, by rfl, by rfl, by rfl⟩
  · intro e h
    obtain ⟨oc, od, ol⟩ := e
    cases oc <;> cases od <;> cases ol <;> simp_all [validate_message]
  · intro cid d cdata h
    simp only [validate_message]
    rw [if_pos h]
  · intro cid d cdata h1 h2
    simp only [validate_message]
    rw [if_neg (by exact fun hc => hc h1), if_pos h2]
  · intro cid d cdata h1 h2 h3
    simp only [validate_message]
    rw [if_neg (by exact fun hc => hc h1), if_neg (by exact fun hc => hc h2), if_pos h3]
  · intro cid d cdata h1 h2 h3
    simp only [validate_message]
    rw [if_neg (by exact fun hc => hc h1), if_neg (by exact fun hc => hc h2),
      if_neg (by simp [h3])]

/-- Witness for C3 at concrete envelopes for each rule. -/
theorem c3_frame_validation_witness :
    validate_message ⟨none, some (List.replicate 8 0), some 8⟩ = .missingField ∧
    ¬ ((0 : Int) ≤ 0x800 ∧ (0x800 : Int) ≤ 0x7FF) ∧
    validate_message ⟨some 0x800, some (List.replicate 8 0), some 8⟩ = .badId ∧
    validate_message ⟨some 0x100, some (List.replicate 8 0), some 9⟩ = .badDlc ∧
    validate_message ⟨some 0x100, some (List.replicate 7 0), some 8⟩ = .badLen :=
  ⟨c3_frame_validation.1 ⟨none, some (List.replicate 8 0), some 8⟩ (Or.inl rfl),
   by decide,
   c3_frame_validation.2.1 0x800 8 (List.replicate 8 0) (by decide),
   c3_frame_validation.2.2.1 0x100 9 (List.replicate 8 0) (by decide) (by decide),
   c3_frame_validation.2.2.2.1 0x100 8 (List.replicate 7 0) (by decide) (by decide) (by decide)⟩

/-- C7 counterexample: an envelope failing the declaredLength rule (dlc = 9)
is dropped, but NO failure counter is incremented - the processor stats are
unchanged except for the received count, refuting the per-class counter
claim. -/
theorem c7_dlc_failure_no_counter_counterexample :
    validate_message ⟨some 0x100, some (List.replicate 8 0), some 9⟩ = .badDlc ∧
    (processor_process_message ⟨0, 0, 0⟩
        ⟨some 0x100, some (List.replicate 8 0), some 9⟩).1 = ⟨1, 0, 0⟩ ∧
    (processor_process_message ⟨0, 0, 0⟩
        ⟨some 0x100, some (List.replicate 8 0), some 9⟩).2 = none := by
  refine ⟨rfl, rfl, rfl⟩

/-- C7 (amended): every envelope failing validation is dropped - never added
to the published frames or the backup buffer (hence never decoded downstream)
- and the connection stays open; but only identifier failures bump a failure
counter (`invalid_ids`) and only payload-length failures bump `invalid_data`,
while missing-field and dlc failures update no failure counter at all. -/
theorem c7_validation_failure_handling :
    (∀ (st : ServerState) (e : Envelope), validate_message e ≠ .ok →
      (process_incoming_message st e).forwarded = st.forwarded ∧
      (process_incoming_message st e).buffer = st.buffer ∧
      (process_incoming_message st e).connectionOpen = st.connectionOpen) ∧
    (∀ (st : ServerState) (e : Envelope), validate_message e = .badId →
      (process_incoming_message st e).pstats =
        { st.pstats with total_received := st.pstats.total_received + 1,
                         invalid_ids := st.pstats.invalid_ids + 1 }) ∧
    (∀ (st : ServerState) (e : Envelope), validate_message e = .badLen →
      (process_incoming_message st e).pstats =
        { st.pstats with total_received := st.pstats.total_received + 1,
                         invalid_data := st.pstats.invalid_data + 1 }) ∧
    (∀ (st : ServerState) (e : Envelope),
      validate_message e = .missingField ∨ validate_message e = .badDlc →
      (process_incoming_message st e).pstats =
        { st.pstats with total_received := st.pstats.total_received + 1 }) := by
  refine ⟨?_, ?_, ?_, ?_⟩
  · intro st e h
    simp [process_incoming_message, processor_process_message, if_neg h]
  · intro st e h
    simp [process_incoming_message, processor_process_message, h, applyCounters]
  · intro st e h
    simp [process_incoming_message, processor_process_message, h, applyCounters]
  · intro st e h
    rcases h with h | h <;>
      simp [process_incoming_message, processor_process_message, h, applyCounters]

/-- Witness for C7 (amended) at a concrete failing envelope and server state. -/
theorem c7_validation_failure_handling_witness :
    validate_message ⟨some 0x800, some (List.replicate 8 0), some 8⟩ ≠ .ok ∧
    (process_incoming_message ⟨⟨0, 0, 0⟩, [], [], true⟩
        ⟨some 0x800, some (List.replicate 8 0), some 8⟩).forwarded
      = (⟨⟨0, 0, 0⟩, [], [], true⟩ : ServerState).forwarded ∧
    (process_incoming_message ⟨⟨0, 0, 0⟩, [], [], true⟩
        ⟨some 0x800, some (List.replicate 8 0), some 8⟩).pstats
      = ⟨1, 1, 0⟩ :=
  ⟨by decide,
   (c7_validation_failure_handling.1 ⟨⟨0, 0, 0⟩, [], [], true⟩
      ⟨some 0x800, some (List.replicate 8 0), some 8⟩ (by decide)).1,
   c7_validation_failure_handling.2.1 ⟨⟨0, 0, 0⟩, [], [], true⟩
      ⟨some 0x800, some (List.replicate 8 0), some 8⟩ (by decide)⟩

/-- Stream of frames pushed through the backup buffer, starting empty. -/
def publishAll {α : Type} (frames : List α) : List α :=
  frames.foldl forward_message []

/-- The backup buffer always holds exactly the most recent min(n, 1000)
frames, in arrival order: folding the policy over a stream leaves the suffix
of the stream past its first `length - 1000` elements. -/
theorem publishAll_eq_drop {α : Type} (L : List α) :
    publishAll L = L.drop (L.length - 1000) := by
  induction L using List.reverseRecOn with
  | nil => simp [publishAll]
  | append_singleton L x ih =>
    have hstep : publishAll (L ++ [x]) = forward_message (publishAll L) x := by
      simp [publishAll, List.foldl_append]
    rw [hstep, ih]
    unfold forward_message
    by_cases h : L.length < 1000
    · have h0 : L.length - 1000 = 0 := by omega
      rw [h0, List.drop_zero, if_pos h]
      have h1 : (L ++ [x]).length - 1000 = 0 := by
        simp only [List.length_append, List.length_cons, List.length_nil]
        omega
      rw [h1, List.drop_zero]
    · have h1000 : (L.drop (L.length - 1000)).length = 1000 := by
        rw [List.length_drop]; omega
      rw [if_neg (by rw [h1000]; omega), List.drop_drop]
      have h3 : (L ++ [x]).drop ((L ++ [x]).length - 1000)
          = L.drop ((L ++ [x]).length - 1000) ++ [x] :=
        List.drop_append_of_le_length
          (by simp only [List.length_append, List.length_cons, List.length_nil]; omega)
      rw [h3]
      have h4 : L.length - 1000 + 1 = (L ++ [x]).length - 1000 := by
        simp only [List.length_append, List.length_cons, List.length_nil]
        omega
      rw [h4]

/-- C5: the local backup buffer has capacity 1000 with oldest-dropped
eviction - a full buffer drops exactly its single oldest frame and appends
the new one, the new frame is never rejected (it always becomes the newest
entry), the buffer never exceeds capacity, and publishing frames 1..1050
into an empty buffer leaves frames 51..1050 in arrival order. -/
theorem c5_backup_buffer :
    (∀ (buf : List Nat) (x : Nat), buf.length = 1000 →
      forward_message buf x = buf.drop 1 ++ [x]) ∧
    (∀ (buf : List Nat) (x : Nat), buf.length ≤ 1000 →
      (forward_message buf x).length ≤ 1000) ∧
    (∀ (buf : List Nat) (x : Nat), (forward_message buf x).getLast? = some x) ∧
    publishAll (List.range' 1 1050) = List.range' 51 1000 := by
  refine ⟨?_, ?_, ?_, ?_⟩
  · intro buf x h
    unfold forward_message
    rw [if_neg (by omega)]
  · intro buf x h
    unfold forward_message
    split
    next hc =>
      simp only [List.length_append, List.length_cons, List.length_nil]
      omega
    next hc =>
      simp only [List.length_append, List.length_drop, List.length_cons, List.length_nil]
      omega
  · intro buf x
    unfold forward_message
    split <;> simp
  · rw [publishAll_eq_drop]
    have hsplit : List.range' 1 50 ++ List.range' 51 1000 = List.range' 1 1050 := by
      have hr := List.range'_append 1 50 1000 1
      simpa using hr
    have hlen : (List.range' 1 1050).length - 1000 = 50 := by
      simp [List.length_range']
    rw [hlen, ← hsplit]
    exact List.drop_left' (by simp)

/-- Witness for C5: a full concrete buffer evicts exactly its oldest entry,
and a new frame always lands at the newest position. -/
theorem c5_backup_buffer_witness :
    (List.replicate 1000 (0 : Nat)).length = 1000 ∧
    forward_message (List.replicate 1000 (0 : Nat)) 7
      = (List.replicate 1000 (0 : Nat)).drop 1 ++ [7] ∧
    (forward_message ([] : List Nat) 7).getLast? = some 7 :=
  ⟨by rw [List.length_replicate],
   c5_backup_buffer.1 (List.replicate 1000 0) 7 (by rw [List.length_replicate]),
   c5_backup_buffer.2.2.1 [] 7⟩

/-- One VSS sample: a path and the mapped value. -/
structure VSSSample where
  path : String
  value : PyVal
deriving DecidableEq

/-- One row of the built-in mapping table: target path and, when the source
dict carries a truthy `conversion` entry, its scale/offset pair (here always
1 and 0, exactly representable). -/
structure MapEntry where
  vss_path : String
  conversion : Option (Nat × Nat)
deriving DecidableEq

/-- Built-in mapping table of `VSSMapper.load_mappings`
(src/scripts/zonal_controller.py, lines 284-343), keyed by (identifier,
signal name); only identifier 0x100 has entries.  `headLamp` carries an
explicit `conversion: None` and the other booleans no conversion key at all -
both model as `none`; `lightLevel` and `vehicleSpeed` carry scale 1.0,
offset 0.0. -/
def vss_mappings (can_id : Int) (signal : String) : Option MapEntry :=
  if can_id = 0x100 then
    if signal = "headLamp" then some ⟨"Vehicle.Body.Lights.IsHighBeamOn", none⟩
    else if signal = "tailLamp" then some ⟨"Vehicle.Body.Lights.IsTailLightOn", none⟩
    else if signal = "brakeLamp" then some ⟨"Vehicle.Body.Lights.IsBrakeLightOn", none⟩
    else if signal = "indicatorLeft" then some ⟨"Vehicle.Body.Lights.IsLeftIndicatorOn", none⟩
    else if signal = "indicatorRight" then some ⟨"Vehicle.Body.Lights.IsRightIndicatorOn", none⟩
    else if signal = "lightLevel" then some ⟨"Vehicle.Body.Lights.AmbientLight", some (1, 0)⟩
    else if signal = "vehicleSpeed" then some ⟨"Vehicle.Speed", some (1, 0)⟩
    else none
  else none

/-- Linear transform `value * scale + offset` applied when a conversion is
configured; Python arithmetic treats `True`/`False` as 1/0. -/
def applyConversion : Option (Nat × Nat) → PyVal → PyVal
  | none, v => v
  | some (sc, off), PyVal.n x => PyVal.n (x * sc + off)
  | some (sc, off), PyVal.b bv => PyVal.n (bv.toNat * sc + off)

/-- Shallow embedding of `VSSMapper.map_can_to_vss`
(src/scripts/zonal_controller.py, lines 345-386): an identifier without a
mapping table yields no samples; otherwise each decoded signal that has a
table entry yields exactly one sample and every other signal is skipped. -/
def map_can_to_vss (can_id : Int) (signals : List (String × PyVal)) : List VSSSample :=
  if can_id = 0x100 then
    signals.filterMap fun p =>
      (vss_mappings can_id p.1).map fun ent => ⟨ent.vss_path, applyConversion ent.conversion p.2⟩
  else []

/-- C8: under the built-in mapping a decoded `lightLevel` of 80 on identifier
0x100 yields exactly one sample, at path Vehicle.Body.Lights.AmbientLight
with value 80 (the configured scale 1/offset 0 leave it unchanged); and any
decoded signal without a table entry for its (identifier, name) pair yields
no sample and no error - it simply disappears from the result set. -/
theorem c8_vss_mapping :
    map_can_to_vss 0x100 [("lightLevel", PyVal.n 80)]
      = [⟨"Vehicle.Body.Lights.AmbientLight", PyVal.n 80⟩] ∧
    (∀ (can_id : Int) (name : String) (v : PyVal),
      vss_mappings can_id name = none →
      ∀ pre post : List (String × PyVal),
        map_can_to_vss can_id (pre ++ (name, v) :: post)
          = map_can_to_vss can_id (pre ++ post)) := by
  constructor
  · rfl
  · intro cid name v hnone pre post
    by_cases hid : cid = 0x100
    · subst hid
      simp [map_can_to_vss, List.filterMap_append, hnone]
    · simp [map_can_to_vss, hid]

/-- Witness for C8: an unmapped signal name on 0x100 and an unmapped
identifier both produce no sample. -/
theorem c8_vss_mapping_witness :
    vss_mappings 0x100 "ambient" = none ∧
    map_can_to_vss 0x100 ([] ++ ("ambient", PyVal.n 3) :: [("lightLevel", PyVal.n 80)])
      = map_can_to_vss 0x100 ([] ++ [("lightLevel", PyVal.n 80)]) :=
  ⟨by rfl,
   c8_vss_mapping.2 0x100 "ambient" (PyVal.n 3) (by rfl) [] [("lightLevel", PyVal.n 80)]⟩

/-- Shallow embedding of `SimpleZonalController.map_to_vss`
(src/scripts/zonal_controller_simple.py, lines 87-125): only `headLamp`,
`tailLamp`, `lightLevel` and `vehicleSpeed` are mapped, each when present in
the decoded dict. -/
def simple_map_to_vss (can_id : Int) (d : DecodedSimple) : List VSSSample :=
  if can_id = 0x100 then
    (match d.headLamp with
      | some bv => [⟨"Vehicle.Body.Lights.IsHighBeamOn", PyVal.b bv⟩]
      | none => []) ++
    (match d.tailLamp with
      | some bv => [⟨"Vehicle.Body.Lights.IsTailLightOn", PyVal.b bv⟩]
      | none => []) ++
    (match d.lightLevel with
      | some x => [⟨"Vehicle.Body.Lights.AmbientLight", PyVal.n x⟩]
      | none => []) ++
    (match d.vehicleSpeed with
      | some x => [⟨"Vehicle.Speed", PyVal.n x⟩]
      | none => [])
  else []

/-- Incoming ZMQ message as seen by the simple controller; either field may
be absent from the JSON dict. -/
structure SimpleMsg where
  can_id : Option Int
  can_data : Option (List Nat)

/-- Shallow embedding of `SimpleZonalController.process_message`
(src/scripts/zonal_controller_simple.py, lines 127-156): `can_id =
data.get('can_id')`, `can_data = data.get('can_data', [])`, then
`if not can_id or not can_data: return` - Python truthiness, so a missing or
zero identifier, or a missing or empty payload list, drops the message before
any decode or VSS mapping; otherwise the message is decoded and mapped. -/
def simple_process_message (m : SimpleMsg) : Option (DecodedSimple × List VSSSample) :=
  let cdata := m.can_data.getD []
  match m.can_id with
  | none => none
  | some cid =>
    if cid = 0 ∨ cdata = [] then none
    else some (decode_can_data cid cdata, simple_map_to_vss cid (decode_can_data cid cdata))

/-- C10: the simple controller silently drops a frame whose `can_id` is 0 (or
missing) or whose `can_data` is empty (or missing) before decode and VSS
mapping - no decoded signal and no VSS sample is produced for it - even
though the frame validator accepts identifier 0x000 as in range. -/
theorem c10_zero_id_dropped :
    (∀ m : SimpleMsg, m.can_id = some 0 → simple_process_message m = none) ∧
    (∀ m : SimpleMsg, m.can_id = none → simple_process_message m = none) ∧
    (∀ m : SimpleMsg, m.can_data = some [] → simple_process_message m = none) ∧
    (∀ m : SimpleMsg, m.can_data = none → simple_process_message m = none) ∧
    validate_message ⟨some 0, some (List.replicate 8 0), some 8⟩ = .ok := by
  refine ⟨?_, ?_, ?_, ?_, by rfl⟩
  · intro m h
    obtain ⟨oc, od⟩ := m
    simp only at h
    subst h
    simp [simple_process_message]
  · intro m h
    obtain ⟨oc, od⟩ := m
    simp only at h
    subst h
    simp [simple_process_message]
  · intro m h
    obtain ⟨oc, od⟩ := m
    simp only at h
    subst h
    cases oc <;> simp [simple_process_message]
  · intro m h
    obtain ⟨oc, od⟩ := m
    simp only at h
    subst h
    cases oc <;> simp [simple_process_message]

/-- Witness for C10 at concrete dropped messages. -/
theorem c10_zero_id_dropped_witness :
    simple_process_message ⟨some 0, some [1, 2, 3, 4, 5, 6, 7, 8]⟩ = none ∧
    simple_process_message ⟨some 0x100, some []⟩ = none :=
  ⟨c10_zero_id_dropped.1 ⟨some 0, some [1, 2, 3, 4, 5, 6, 7, 8]⟩ rfl,
   c10_zero_id_dropped.2.2.1 ⟨some 0x100, some []⟩ rfl⟩
